import Mathlib

/-!
Verification of the porous-DBR transfer-matrix simulator (`TMM_Class.py`).

The embedding below translates the algorithmic core of the repository into
Lean over exact arithmetic: Python floats become `ℝ`, Python ints become `ℤ`
(or `ℕ` where the source can only hold a non-negative count), numpy arrays
become `List ℝ`, and `np.inf` sentinels inside the thickness list become `⊤`
of `WithTop ℝ`.  The external coherent TMM solver (`coh_tmm`) is an excluded
collaborator and is modelled as an abstract function argument.  A Python
`raise` is modelled by returning `Except.error`.
-/

/-- Source `porosity_to_n(porosity, GaN_n, air_n)` from `TMM_Class.py`:
`np.sqrt((1-porosity)*GaN_n*GaN_n + porosity*air_n*air_n)`. -/
noncomputable def porosity_to_n (porosity GaN_n air_n : ℝ) : ℝ :=
  Real.sqrt ((1 - porosity) * GaN_n * GaN_n + porosity * air_n * air_n)

/-- The constructor state of class `DBR` (`__init__`): the fields that the
algorithmic core reads.  `label` and `path` only feed the excluded csv/plot
collaborators and are omitted. -/
structure DBR where
  Period : ℝ
  T_Rat : ℝ
  Phi : ℝ
  NLayers : ℕ
  T_Temp : ℝ

/-- Source `self.T_Por = T_Rat*Period` computed in `__init__`. -/
noncomputable def DBR.T_Por (s : DBR) : ℝ := s.T_Rat * s.Period

/-- Source `self.T_GaN = Period - self.T_Por` computed in `__init__`. -/
noncomputable def DBR.T_GaN (s : DBR) : ℝ := s.Period - s.T_Por

/-- The two ways a `MakeGrades` call can raise in Python:
`invalidGradeCount` is the explicit `ValueError("NGrades must be odd!")`
raised by the oddness check, and `negativeDimensions` is the numpy
`ValueError("negative dimensions are not allowed")` raised by
`np.fromfunction` when a requested shape component is negative (which
happens exactly when `halfN - 1 < 0`, i.e. for odd `NGrades < 1`). -/
inductive GradeErr where
  | invalidGradeCount
  | negativeDimensions
deriving DecidableEq

/-- The data `MakeGrades` stores on `self`: `self.Por_Graded` and
`self.T_Graded`. -/
structure Graded where
  Por_Graded : List ℝ
  T_Graded : List ℝ

/-- The raw graded shape `Por_Grad` of `MakeGrades`: the concatenation of
`Por_Grad1 = [1 + Factor*j**Order for j in range(halfN)]` and
`Por_Grad2 = [1 + Factor*(halfN-j-2)**Order for j in range(halfN-1)]`
(the two `np.fromfunction` calls flattened by `np.concatenate`).  The
integer bases are exactly the numpy values; `^` is the real power, which
agrees with the numpy float power on the non-negative bases that occur. -/
noncomputable def rawShape (Factor Order : ℝ) (hN : ℕ) : List ℝ :=
  ((List.range hN).map fun (j : ℕ) => 1 + Factor * (j : ℝ) ^ Order) ++
    ((List.range (hN - 1)).map fun (j : ℕ) =>
      1 + Factor * (((hN : ℤ) - (j : ℤ) - 2 : ℤ) : ℝ) ^ Order)

/-- Source `halfN = int((NGrades+1)/2)` from `MakeGrades`.  For odd `NGrades` the
division is exact, so Python float true-division followed by `int()`
truncation agrees with integer division. -/
def halfN (NGrades : ℤ) : ℤ := (NGrades + 1) / 2

/-- The local `Por_Grad = np.concatenate((Por_Grad1, Por_Grad2), axis=None)`
of `MakeGrades`. -/
noncomputable def Por_Grad (Factor Order : ℝ) (NGrades : ℤ) : List ℝ :=
  rawShape Factor Order (halfN NGrades).toNat

/-- The local `a = np.sum(Por_Grad)/(NGrades*self.Phi)` of `MakeGrades`.
Note that this reads `self.Phi` (the constructor porosity), not the `Phi`
argument of the call. -/
noncomputable def scaleA (s : DBR) (Factor Order : ℝ) (NGrades : ℤ) : ℝ :=
  (Por_Grad Factor Order NGrades).sum / ((NGrades : ℝ) * s.Phi)

/-- Source `self.Por_Graded = Por_Grad/a` from `MakeGrades`. -/
noncomputable def Por_Graded (s : DBR) (Factor Order : ℝ) (NGrades : ℤ) : List ℝ :=
  (Por_Grad Factor Order NGrades).map (fun x => x / scaleA s Factor Order NGrades)

/-- Source `self.T_Graded = [self.T_Por/NGrades]*NGrades` from `MakeGrades`
(with `T_Grade = self.T_Por/NGrades`). -/
noncomputable def T_Graded (s : DBR) (NGrades : ℤ) : List ℝ :=
  List.replicate NGrades.toNat (s.T_Por / (NGrades : ℝ))

/-- Source `DBR.MakeGrades(self, NGrades, Factor, Order, Phi)`.  Mirrors the source:
the oddness check raises `ValueError("NGrades must be odd!")`; for odd
`NGrades < 1` the `np.fromfunction` shape `(1, halfN)` or `(1, halfN-1)` has
a negative component and numpy raises its distinct
`ValueError("negative dimensions are not allowed")`; otherwise the graded
porosities and thicknesses are stored.  The `PhiArg` parameter is the
(unused) `Phi` argument of the Python function. -/
noncomputable def MakeGrades (s : DBR) (NGrades : ℤ) (Factor Order PhiArg : ℝ) :
    Except GradeErr Graded :=
  if NGrades % 2 = 0 then .error .invalidGradeCount
  else if halfN NGrades < 1 then .error .negativeDimensions
  else .ok { Por_Graded := Por_Graded s Factor Order NGrades
             T_Graded := T_Graded s NGrades }

/-- Arithmetic mean of a list of reals, the `average` of the claims. -/
noncomputable def listAvg (l : List ℝ) : ℝ := l.sum / l.length

/-- The average porosity of a `MakeGrades` result, `none` when the call
raised. -/
noncomputable def avgOf (r : Except GradeErr Graded) : Option ℝ :=
  match r with
  | .ok g => some (listAvg g.Por_Graded)
  | .error _ => none

/-- Python list repetition `lst * n`. -/
def pyRepeat (l : List α) (n : ℕ) : List α := (List.replicate n l).flatten

/-- The repeated block `Repeat = [self.T_GaN] + self.T_Graded` of the
thickness list (constant-index branch of `Simulate`/`SimulateParts`). -/
noncomputable def dBlock (s : DBR) (g : Graded) : List (WithTop ℝ) :=
  (s.T_GaN : WithTop ℝ) :: g.T_Graded.map (fun (t : ℝ) => (t : WithTop ℝ))

/-- The repeated block `Repeat = [n] + n_Por` of the index list, where
`n_Por = porosity_to_n(self.Por_Graded, n, n_Space)`. -/
noncomputable def nBlock (g : Graded) (n nSpace : ℝ) : List ℝ :=
  n :: g.Por_Graded.map (fun p => porosity_to_n p n nSpace)

/-- Source `self.d_list = [inf] + Repeat*self.NLayers + [self.T_Temp] + [inf]`
from `DBR.Simulate` (constant-index branch; the dispersion branch builds
the identical list). -/
noncomputable def d_list (s : DBR) (g : Graded) : List (WithTop ℝ) :=
  [⊤] ++ pyRepeat (dBlock s g) s.NLayers ++ [(s.T_Temp : WithTop ℝ), ⊤]

/-- Source `self.n_list = [1] + Repeat*self.NLayers + [n] + [n_Sub]` from
`DBR.Simulate` (constant-index branch). -/
noncomputable def n_list (s : DBR) (g : Graded) (n nSub nSpace : ℝ) : List ℝ :=
  [1] ++ pyRepeat (nBlock g n nSpace) s.NLayers ++ [n, nSub]

/-- Source `self.d_list` from `DBR.SimulateParts`:
`[inf] + RepeatTop*TopDBR.NLayers + Repeat*self.NLayers + [self.T_Temp] + [inf]`. -/
noncomputable def d_listParts (s Top : DBR) (g gTop : Graded) : List (WithTop ℝ) :=
  [⊤] ++ pyRepeat (dBlock Top gTop) Top.NLayers ++ pyRepeat (dBlock s g) s.NLayers ++
    [(s.T_Temp : WithTop ℝ), ⊤]

/-- Source `self.n_list` from `DBR.SimulateParts`:
`[1] + RepeatTop*TopDBR.NLayers + Repeat*self.NLayers + [n] + [n_Sub]`. -/
noncomputable def n_listParts (s Top : DBR) (g gTop : Graded) (n nSub nSpace : ℝ) :
    List ℝ :=
  [1] ++ pyRepeat (nBlock gTop n nSpace) Top.NLayers ++
    pyRepeat (nBlock g n nSpace) s.NLayers ++ [n, nSub]

/-- Source `np.linspace(start, stop, num)` with the default included endpoint:
sample `i` is `start + i*(stop-start)/(num-1)`.  (For `num = 1` the formula
collapses to `[start]`, and for `num = 0` to `[]`, as in numpy.) -/
noncomputable def linspace (start stop : ℝ) (num : ℕ) : List ℝ :=
  (List.range num).map fun (i : ℕ) =>
    start + (i : ℝ) * (stop - start) / ((num : ℝ) - 1)

/-- The wavelength grid of the constant-index branch:
`self.Wav = linspace(200, 1000, 800)`. -/
noncomputable def wavConst : List ℝ := linspace 200 1000 800

/-- The reflectance sequence of the constant-index branch of `Simulate`:
one solver call per wavelength on the fixed stack.  `solve nl dl 0 lam`
stands for the excluded collaborator `coh_tmm` applied to the fixed
polarization s, the index list, the thickness list, incidence angle 0 and
the wavelength, reading the reflectance entry R of its result. -/
noncomputable def Rnorm (solve : List ℝ → List (WithTop ℝ) → ℝ → ℝ → ℝ)
    (s : DBR) (g : Graded) (n nSub nSpace : ℝ) : List ℝ :=
  wavConst.map fun lam => solve (n_list s g n nSub nSpace) (d_list s g) 0 lam

/-- The reflectance sequence of the constant-index branch of `SimulateParts`. -/
noncomputable def RnormParts (solve : List ℝ → List (WithTop ℝ) → ℝ → ℝ → ℝ)
    (s Top : DBR) (g gTop : Graded) (n nSub nSpace : ℝ) : List ℝ :=
  wavConst.map fun lam =>
    solve (n_listParts s Top g gTop n nSub nSpace) (d_listParts s Top g gTop) 0 lam

/-- Python `int()` on a float: truncation toward zero. -/
noncomputable def pyInt (x : ℝ) : ℤ := if 0 ≤ x then ⌊x⌋ else ⌈x⌉

/-- Source `min(self.Wav)` after `self.Wav = self.Wav*1000`, for a dispersion table
whose wavelength column is `w0 :: ws` (in micrometers; the table is nonempty
or the Python would fail). -/
noncomputable def gridLo (w0 : ℝ) (ws : List ℝ) : ℝ :=
  (ws.map (fun w => w * 1000)).foldr min (w0 * 1000)

/-- Source `min(1000, self.Wav[-1])` after the micrometer-to-nanometer conversion. -/
noncomputable def gridHi (w0 : ℝ) (ws : List ℝ) : ℝ :=
  min 1000 ((ws.map (fun w => w * 1000)).getLastD (w0 * 1000))

/-- Source `int((1000 - min(self.Wav)))`, the `num` argument of the grid `linspace`. -/
noncomputable def gridNum (w0 : ℝ) (ws : List ℝ) : ℕ :=
  (pyInt (1000 - gridLo w0 ws)).toNat

/-- The dispersion-branch wavelength grid of `Simulate`/`SimulateParts`:
`self.Wav = linspace(min(self.Wav), min(1000, self.Wav[-1]), num=int((1000-min(self.Wav))))`. -/
noncomputable def simWavGrid (w0 : ℝ) (ws : List ℝ) : List ℝ :=
  linspace (gridLo w0 ws) (gridHi w0 ws) (gridNum w0 ws)

/-- Concrete structure used to instantiate theorems: a `DBR` built as in the
example script, with exact rational parameters. -/
noncomputable def s1 : DBR :=
  { Period := 100, T_Rat := 1/2, Phi := 1/2, NLayers := 0, T_Temp := 40 }

/-- Concrete structure with zero construction porosity (`Phi = 0`), the
input of end-to-end scenario 2 of the spec. -/
noncomputable def s3 : DBR :=
  { Period := 100, T_Rat := 1/2, Phi := 0, NLayers := 12, T_Temp := 3400 }

/-- Concrete structure with zero template thickness and zero repeats. -/
noncomputable def s7 : DBR :=
  { Period := 100, T_Rat := 1/2, Phi := 1/2, NLayers := 0, T_Temp := 0 }

/-- Concrete bottom-segment structure with two repeats. -/
noncomputable def s2 : DBR :=
  { Period := 100, T_Rat := 1/2, Phi := 1/2, NLayers := 2, T_Temp := 40 }

/-- Concrete top-segment structure with zero repeats. -/
noncomputable def top0 : DBR :=
  { Period := 90, T_Rat := 1/3, Phi := 2/5, NLayers := 0, T_Temp := 0 }

/-- A concrete graded profile (the `MakeGrades s1 3 0 0 0` output). -/
noncomputable def gEval : Graded :=
  { Por_Graded := [1/2, 1/2, 1/2], T_Graded := [50/3, 50/3, 50/3] }

/-- A concrete graded profile for the top segment. -/
noncomputable def gTop0 : Graded :=
  { Por_Graded := [2/5], T_Graded := [30] }

/-- Claim C10: the effective-medium mixing function recovers the pure
constituents at the boundary porosities: `porosity_to_n 0 a b = a` and
`porosity_to_n 1 a b = b` for all non-negative `a`, `b`. -/
theorem C10_boundary_porosity (a b : ℝ) (ha : 0 ≤ a) (hb : 0 ≤ b) :
    porosity_to_n 0 a b = a ∧ porosity_to_n 1 a b = b := by
  constructor
  · simp only [porosity_to_n, sub_zero, one_mul, zero_mul, add_zero]
    exact Real.sqrt_mul_self ha
  · simp only [porosity_to_n, sub_self, zero_mul, one_mul, zero_add]
    exact Real.sqrt_mul_self hb

/-- Witness for C10 at `a = 2`, `b = 3`. -/
theorem C10_boundary_porosity_witness :
    (0 : ℝ) ≤ 2 ∧ (0 : ℝ) ≤ 3 ∧
      (porosity_to_n 0 2 3 = 2 ∧ porosity_to_n 1 2 3 = 3) :=
  ⟨by norm_num, by norm_num, C10_boundary_porosity 2 3 (by norm_num) (by norm_num)⟩

/-- Claim C8: `MakeGrades` does not depend on its `Phi` argument — the
normalization reads `self.Phi`, the porosity stored at construction, so two
calls that differ only in the `Phi` argument return identical porosity
values and sub-layer thicknesses. -/
theorem C8_phi_argument_ignored (s : DBR) (NGrades : ℤ) (Factor Order p₁ p₂ : ℝ) :
    MakeGrades s NGrades Factor Order p₁ = MakeGrades s NGrades Factor Order p₂ :=
  rfl

/-- Length of the raw graded shape: `halfN + (halfN - 1)` entries. -/
theorem length_rawShape (Factor Order : ℝ) (hN : ℕ) :
    (rawShape Factor Order hN).length = hN + (hN - 1) := by
  unfold rawShape
  rw [List.length_append, List.length_map, List.length_map, List.length_range,
    List.length_range]

/-- The raw graded shape at `NGrades = 3`, entry by entry. -/
theorem Por_Grad_three (Factor Order : ℝ) :
    Por_Grad Factor Order 3 =
      [1 + Factor * (0:ℝ) ^ Order, 1 + Factor * (1:ℝ) ^ Order,
        1 + Factor * (0:ℝ) ^ Order] := by
  show rawShape Factor Order (halfN 3).toNat = _
  rw [show (halfN 3).toNat = 2 by decide]
  unfold rawShape
  rw [show List.range 2 = [0, 1] by decide, show (2:ℕ) - 1 = 1 by decide,
    show List.range 1 = [0] by decide]
  simp

/-- Dividing every entry of a list divides its sum. -/
theorem sum_map_div (l : List ℝ) (c : ℝ) :
    (l.map (fun x => x / c)).sum = l.sum / c := by
  induction l with
  | nil => simp
  | cons a t ih => simp [ih, add_div]

/-- Elimination for a successful `MakeGrades` call: the grade count is odd
and at least 1, and the result is the stored porosity/thickness pair. -/
theorem MakeGrades_eq_ok {s : DBR} {N : ℤ} {F O p : ℝ} {g : Graded}
    (hok : MakeGrades s N F O p = .ok g) :
    N % 2 = 1 ∧ 1 ≤ N ∧ g = ⟨Por_Graded s F O N, T_Graded s N⟩ := by
  unfold MakeGrades at hok
  by_cases h1 : N % 2 = 0
  · rw [if_pos h1] at hok; simp at hok
  · rw [if_neg h1] at hok
    by_cases h2 : halfN N < 1
    · rw [if_pos h2] at hok; simp at hok
    · rw [if_neg h2] at hok
      have hodd : N % 2 = 1 := by omega
      have hN1 : 1 ≤ N := by unfold halfN at h2; omega
      exact ⟨hodd, hN1, (Except.ok.inj hok).symm⟩

/-- A successful call stores one porosity value per grade. -/
theorem length_Por_Graded {N : ℤ} (h1 : N % 2 = 1) (hN : 1 ≤ N)
    (s : DBR) (F O : ℝ) : (Por_Graded s F O N).length = N.toNat := by
  simp only [Por_Graded, Por_Grad, List.length_map, length_rawShape, halfN]
  omega

/-- Claim C1 (amended): for every odd `NGrades ≥ 1`, every factor/exponent,
and every positive construction porosity, provided the raw shape values do
not sum to zero, `MakeGrades` succeeds and the arithmetic mean of the stored
porosity values is exactly the target porosity `self.Phi`. -/
theorem C1_average_porosity (s : DBR) (N : ℤ) (F O p : ℝ)
    (hodd : Odd N) (hN : 1 ≤ N) (hphi : 0 < s.Phi)
    (hsum : (Por_Grad F O N).sum ≠ 0) :
    ∃ g, MakeGrades s N F O p = .ok g ∧ listAvg g.Por_Graded = s.Phi := by
  have h1 : ¬ (N % 2 = 0) := by rcases hodd with ⟨k, hk⟩; omega
  have h2 : ¬ (halfN N < 1) := by unfold halfN; omega
  refine ⟨_, by unfold MakeGrades; rw [if_neg h1, if_neg h2], ?_⟩
  show listAvg (Por_Graded s F O N) = s.Phi
  have hlen : (Por_Graded s F O N).length = N.toNat := length_Por_Graded (by omega) hN s F O
  unfold listAvg
  rw [hlen]
  unfold Por_Graded
  rw [sum_map_div]
  unfold scaleA
  have hNcast : ((N.toNat : ℕ) : ℝ) = (N : ℝ) := by
    exact_mod_cast congrArg Int.cast (Int.toNat_of_nonneg (by omega : (0:ℤ) ≤ N))
  rw [hNcast]
  have hNne : (N : ℝ) ≠ 0 := Int.cast_ne_zero.mpr (by omega)
  field_simp

/-- Witness for C1 at `s1`, `NGrades = 3`, `Factor = 0`, `Order = 0`. -/
theorem C1_average_porosity_witness :
    Odd (3 : ℤ) ∧ (1 : ℤ) ≤ 3 ∧ 0 < s1.Phi ∧ (Por_Grad (0:ℝ) 0 3).sum ≠ 0 ∧
      ∃ g, MakeGrades s1 3 0 0 0 = .ok g ∧ listAvg g.Por_Graded = s1.Phi := by
  have hsum : (Por_Grad (0:ℝ) 0 3).sum ≠ 0 := by
    rw [Por_Grad_three]
    norm_num
  have hphi : 0 < s1.Phi := by norm_num [s1]
  exact ⟨by decide, by decide, hphi, hsum,
    C1_average_porosity s1 3 0 0 0 (by decide) (by decide) hphi hsum⟩

/-- Counterexample to C1 as stated: at `NGrades = 3`, `Factor = -3`,
`Order = 1`, construction porosity `1/2 > 0` — all raw shape values defined
(they are `[1, -2, 1]`) — the raw sum is zero, the scaling factor `a`
vanishes, and the stored average is not the target.  (In Python the stored
values are `nan = 0.0/0.0`; in the exact embedding the division-by-zero
convention stores `0`, and either way the average differs from `1/2`.) -/
theorem C1_cex :
    Odd (3 : ℤ) ∧ (1 : ℤ) ≤ 3 ∧ 0 < s1.Phi ∧
      avgOf (MakeGrades s1 3 (-3) 1 (1/2)) = some 0 ∧ (0 : ℝ) ≠ s1.Phi := by
  have hG : Por_Grad (-3 : ℝ) 1 3 = [1, -2, 1] := by
    rw [Por_Grad_three]
    norm_num [Real.rpow_one]
  have hA : scaleA s1 (-3) 1 3 = 0 := by
    unfold scaleA
    rw [hG]
    norm_num
  have hP : Por_Graded s1 (-3) 1 3 = [0, 0, 0] := by
    unfold Por_Graded
    rw [hG, hA]
    simp
  refine ⟨by decide, by decide, by norm_num [s1], ?_, by norm_num [s1]⟩
  show avgOf (MakeGrades s1 3 (-3) 1 (1/2)) = some 0
  unfold MakeGrades
  rw [if_neg (by decide), if_neg (by decide)]
  simp [avgOf, hP, listAvg]

/-- Claim C3, code behaviour: with construction porosity `Phi = 0` the call
`MakeGrades(3, Factor, Order, 0)` raises nothing at all — `a` is computed by
a silent division by zero (in numpy `a = inf` with a runtime warning) and
the stored porosity values are all `0.0` — instead of the
`DivisionByZeroPorosity` error the spec requires.  (Here `Factor = 0`, any
order; the exact embedding maps the divide-by-zero to `a = 0` and the stored
values to `0`, the same values numpy stores via `raw/inf`.) -/
theorem C3_no_error_at_zero_porosity :
    s3.Phi = 0 ∧
      MakeGrades s3 3 0 0 0 = .ok ⟨[0, 0, 0], [50/3, 50/3, 50/3]⟩ := by
  have hG : Por_Grad (0:ℝ) 0 3 = [1, 1, 1] := by
    rw [Por_Grad_three]
    norm_num
  have hA : scaleA s3 0 0 3 = 0 := by
    unfold scaleA
    rw [hG]
    norm_num [s3]
  have hP : Por_Graded s3 0 0 3 = [0, 0, 0] := by
    unfold Por_Graded
    rw [hG, hA]
    simp
  have hT : T_Graded s3 3 = [50/3, 50/3, 50/3] := by
    unfold T_Graded
    rw [show (3:ℤ).toNat = 3 by decide]
    norm_num [List.replicate, s3, DBR.T_Por]
  constructor
  · norm_num [s3]
  · unfold MakeGrades
    rw [if_neg (by decide), if_neg (by decide), hP, hT]

/-- Claim C4 (amended): `MakeGrades` fails with the explicit
`InvalidGradeCount` error exactly on even grade counts; for an odd grade
count below 1 it fails too, but with the distinct numpy negative-dimensions
error rather than `InvalidGradeCount`; and for every odd grade count `≥ 1`
it succeeds with a profile of length `NGrades`. -/
theorem C4_grade_count_validation (s : DBR) (N : ℤ) (F O p : ℝ) :
    (N % 2 = 0 → MakeGrades s N F O p = .error .invalidGradeCount) ∧
    (Odd N → N < 1 → MakeGrades s N F O p = .error .negativeDimensions) ∧
    (Odd N → 1 ≤ N → ∃ g, MakeGrades s N F O p = .ok g ∧
      g.Por_Graded.length = N.toNat ∧ g.T_Graded.length = N.toNat) := by
  refine ⟨fun h => by unfold MakeGrades; rw [if_pos h], fun ho hlt => ?_, fun ho hge => ?_⟩
  · have h1 : ¬ (N % 2 = 0) := by rcases ho with ⟨k, hk⟩; omega
    have h2 : halfN N < 1 := by rcases ho with ⟨k, hk⟩; unfold halfN; omega
    unfold MakeGrades; rw [if_neg h1, if_pos h2]
  · have h1 : ¬ (N % 2 = 0) := by rcases ho with ⟨k, hk⟩; omega
    have h2 : ¬ (halfN N < 1) := by rcases ho with ⟨k, hk⟩; unfold halfN; omega
    refine ⟨_, by unfold MakeGrades; rw [if_neg h1, if_neg h2], ?_, ?_⟩
    · exact length_Por_Graded (by omega) hge s F O
    · simp [T_Graded]

/-- Witness for C4 at grade counts `2` (even), `-1` (odd, below 1) and `3`. -/
theorem C4_grade_count_validation_witness :
    MakeGrades s1 2 0 0 0 = .error .invalidGradeCount ∧
    MakeGrades s1 (-1) 0 0 0 = .error .negativeDimensions ∧
    (∃ g, MakeGrades s1 3 0 0 0 = .ok g ∧
      g.Por_Graded.length = (3:ℤ).toNat ∧ g.T_Graded.length = (3:ℤ).toNat) :=
  ⟨(C4_grade_count_validation s1 2 0 0 0).1 (by decide),
   (C4_grade_count_validation s1 (-1) 0 0 0).2.1 (by decide) (by decide),
   (C4_grade_count_validation s1 3 0 0 0).2.2 (by decide) (by decide)⟩

/-- Counterexample to C4 as stated: at the odd grade count `-1 < 1` the call
does fail, but with the numpy negative-dimensions `ValueError` from the
`np.fromfunction` shape `(1, halfN-1) = (1, -1)`, not with the explicit
`InvalidGradeCount` (`"NGrades must be odd!"`) validation error the claim
names. -/
theorem C4_cex :
    (-1 : ℤ) < 1 ∧ MakeGrades s1 (-1) 0 0 0 = .error .negativeDimensions ∧
      MakeGrades s1 (-1) 0 0 0 ≠ .error .invalidGradeCount := by
  have h : MakeGrades s1 (-1) 0 0 0 = .error .negativeDimensions := by
    unfold MakeGrades
    rw [if_neg (by decide), if_pos (by decide)]
  exact ⟨by decide, h, by rw [h]; simp⟩

/-- Claim C9: for every odd `NGrades ≥ 1` a successful `MakeGrades` stores
exactly `NGrades` sub-layer thicknesses, all equal (to `self.T_Por/NGrades`),
and their sum is exactly the porous-layer thickness `T_Rat * Period`. -/
theorem C9_sublayer_thicknesses (s : DBR) (N : ℤ) (F O p : ℝ) (g : Graded)
    (hodd : Odd N) (hN : 1 ≤ N) (hok : MakeGrades s N F O p = .ok g) :
    g.T_Graded.length = N.toNat ∧
      (∀ t ∈ g.T_Graded, t = s.T_Por / (N : ℝ)) ∧
      g.T_Graded.sum = s.T_Rat * s.Period := by
  obtain ⟨h1, h2, rfl⟩ := MakeGrades_eq_ok hok
  refine ⟨by simp [T_Graded], ?_, ?_⟩
  · intro t ht
    exact List.eq_of_mem_replicate ht
  · show (T_Graded s N).sum = s.T_Rat * s.Period
    unfold T_Graded
    rw [List.sum_replicate, nsmul_eq_mul]
    have hNcast : ((N.toNat : ℕ) : ℝ) = (N : ℝ) := by
      exact_mod_cast congrArg Int.cast (Int.toNat_of_nonneg (by omega : (0:ℤ) ≤ N))
    rw [hNcast, mul_comm, div_mul_cancel₀]
    · rfl
    · exact Int.cast_ne_zero.mpr (by omega)

/-- Witness for C9 at `s1`, `NGrades = 3`. -/
theorem C9_sublayer_thicknesses_witness :
    Odd (3 : ℤ) ∧ (1 : ℤ) ≤ 3 ∧
      ∃ g, MakeGrades s1 3 0 0 0 = .ok g ∧
        (g.T_Graded.length = (3:ℤ).toNat ∧
          (∀ t ∈ g.T_Graded, t = s1.T_Por / ((3:ℤ) : ℝ)) ∧
          g.T_Graded.sum = s1.T_Rat * s1.Period) := by
  have hok : MakeGrades s1 3 0 0 0 = .ok ⟨Por_Graded s1 0 0 3, T_Graded s1 3⟩ := by
    unfold MakeGrades
    rw [if_neg (by decide), if_neg (by decide)]
  exact ⟨by decide, by decide, _, hok,
    C9_sublayer_thicknesses s1 3 0 0 0 _ (by decide) (by decide) hok⟩

/-- Python list repetition produces `n` copies of the block. -/
theorem length_pyRepeat (l : List α) (n : ℕ) :
    (pyRepeat l n).length = n * l.length := by
  induction n with
  | zero => simp [pyRepeat]
  | succ k ih =>
    unfold pyRepeat at ih ⊢
    rw [List.replicate_succ, List.flatten_cons, List.length_append, ih]
    ring

/-- Claim C5: for every repeat count and every profile produced by a
successful grading call, the assembled index and thickness lists have equal
length (namely `NLayers*(1+NGrades) + 3`), and with zero repeats the
interior block is empty: only the incidence boundary, the template entry
and the substrate boundary remain. -/
theorem C5_stack_alignment (s : DBR) (N : ℤ) (F O p n nSub nSpace : ℝ) (g : Graded)
    (hok : MakeGrades s N F O p = .ok g) :
    (n_list s g n nSub nSpace).length = (d_list s g).length ∧
    (d_list s g).length = s.NLayers * (N.toNat + 1) + 3 ∧
    (s.NLayers = 0 → d_list s g = [⊤, (s.T_Temp : WithTop ℝ), ⊤] ∧
      n_list s g n nSub nSpace = [1, n, nSub]) := by
  obtain ⟨h1, h2, rfl⟩ := MakeGrades_eq_ok hok
  have hPl : (Por_Graded s F O N).length = N.toNat := length_Por_Graded h1 h2 s F O
  have hTl : (T_Graded s N).length = N.toNat := by simp [T_Graded]
  refine ⟨?_, ?_, ?_⟩
  · simp only [n_list, d_list, List.length_append, List.length_map, List.length_cons,
      List.length_nil, length_pyRepeat, nBlock, dBlock, hPl, hTl]
  · simp only [d_list, List.length_append, List.length_map, List.length_cons,
      List.length_nil, length_pyRepeat, dBlock, hTl]
    omega
  · intro h0
    constructor
    · simp [d_list, pyRepeat, h0]
    · simp [n_list, pyRepeat, h0]

/-- Witness for C5 at `s1` (zero repeats) with the `MakeGrades s1 3 0 0 0`
profile. -/
theorem C5_stack_alignment_witness :
    ∃ g, MakeGrades s1 3 0 0 0 = .ok g ∧
      ((n_list s1 g (238/100) (176/100) 1).length = (d_list s1 g).length ∧
        (d_list s1 g).length = s1.NLayers * ((3:ℤ).toNat + 1) + 3 ∧
        (s1.NLayers = 0 → d_list s1 g = [⊤, (s1.T_Temp : WithTop ℝ), ⊤] ∧
          n_list s1 g (238/100) (176/100) 1 = [1, 238/100, 176/100])) := by
  have hok : MakeGrades s1 3 0 0 0 = .ok ⟨Por_Graded s1 0 0 3, T_Graded s1 3⟩ := by
    unfold MakeGrades
    rw [if_neg (by decide), if_neg (by decide)]
  exact ⟨_, hok, C5_stack_alignment s1 3 0 0 0 (238/100) (176/100) 1 _ hok⟩

/-- Claim C6: composite-stack assembly (`SimulateParts`) with a top segment
of zero repeats builds exactly the index and thickness lists of
single-structure assembly (`Simulate`) of the bottom segment, and hence —
for any solver — the identical reflectance sequence over the identical
wavelength grid. -/
theorem C6_zero_top_equivalence (s Top : DBR) (g gTop : Graded) (n nSub nSpace : ℝ)
    (solve : List ℝ → List (WithTop ℝ) → ℝ → ℝ → ℝ) (h0 : Top.NLayers = 0) :
    d_listParts s Top g gTop = d_list s g ∧
    n_listParts s Top g gTop n nSub nSpace = n_list s g n nSub nSpace ∧
    RnormParts solve s Top g gTop n nSub nSpace = Rnorm solve s g n nSub nSpace := by
  have hd : d_listParts s Top g gTop = d_list s g := by
    simp [d_listParts, d_list, h0, pyRepeat]
  have hn : n_listParts s Top g gTop n nSub nSpace = n_list s g n nSub nSpace := by
    simp [n_listParts, n_list, h0, pyRepeat]
  refine ⟨hd, hn, ?_⟩
  unfold RnormParts Rnorm
  rw [hd, hn]

/-- Witness for C6 at the concrete bottom segment `s2` and zero-repeat top
segment `top0`, with the identity-in-wavelength solver. -/
theorem C6_zero_top_equivalence_witness :
    top0.NLayers = 0 ∧
      (d_listParts s2 top0 gEval gTop0 = d_list s2 gEval ∧
        n_listParts s2 top0 gEval gTop0 (238/100) (176/100) 1 =
          n_list s2 gEval (238/100) (176/100) 1 ∧
        RnormParts (fun _ _ _ lam => lam) s2 top0 gEval gTop0 (238/100) (176/100) 1 =
          Rnorm (fun _ _ _ lam => lam) s2 gEval (238/100) (176/100) 1) :=
  ⟨rfl, C6_zero_top_equivalence s2 top0 gEval gTop0 (238/100) (176/100) 1
    (fun _ _ _ lam => lam) rfl⟩

/-- Claim C7 (amended): every assembled thickness list begins with the
semi-infinite incidence entry and ends with the semi-infinite substrate
entry, and a template entry of thickness `self.T_Temp` sits directly before
the substrate entry unconditionally — also when `T_Temp = 0`. -/
theorem C7_template_always_present (s : DBR) (g : Graded) :
    (d_list s g).head? = some ⊤ ∧
    (d_list s g).getLast? = some ⊤ ∧
    (d_list s g).reverse[1]? = some ((s.T_Temp : WithTop ℝ)) := by
  refine ⟨rfl, ?_, ?_⟩
  · rw [← List.head?_reverse]
    simp [d_list, List.reverse_append]
  · simp [d_list, List.reverse_append]

/-- Counterexample to C7 as stated: with `T_Temp = 0` (and zero repeats) the
thickness list still carries a finite template entry `0.0` between the
boundary entries — the claim predicts it is absent. -/
theorem C7_cex :
    s7.T_Temp = 0 ∧
    d_list s7 gTop0 = [⊤, ((0:ℝ) : WithTop ℝ), ⊤] ∧
    ((0:ℝ) : WithTop ℝ) ≠ (⊤ : WithTop ℝ) := by
  refine ⟨rfl, ?_, ?_⟩
  · simp [d_list, s7, pyRepeat]
  · simp

/-- For the table spanning `[0.3, 0.7]` micrometers the converted lower grid
bound is `300` nm. -/
theorem gridLo_eval : gridLo (3/10 : ℝ) [7/10] = 300 := by
  unfold gridLo
  simp [min_def]
  norm_num

/-- For the table spanning `[0.3, 0.7]` micrometers the converted upper grid
bound is `700` nm. -/
theorem gridHi_eval : gridHi (3/10 : ℝ) [7/10] = 700 := by
  unfold gridHi
  simp [min_def]
  norm_num

/-- For the table spanning `[0.3, 0.7]` micrometers the sample count
`int(1000 - 300)` is `700`. -/
theorem gridNum_eval : gridNum (3/10 : ℝ) [7/10] = 700 := by
  unfold gridNum pyInt
  rw [gridLo_eval]
  norm_num
  decide

/-- Claim C2 (amended): the dispersion-mode wavelength grid spans
`[min(tableNm), min(1000, last(tableNm))]` with `int(1000 - min(tableNm))`
uniformly spaced samples, endpoints included — the spacing is
`(hi - lo)/(num - 1)`, which is 1 nm only when the table reaches 1000 nm,
not in general. -/
theorem C2_grid_sampling (w0 : ℝ) (ws : List ℝ) (h2 : 2 ≤ gridNum w0 ws) :
    (simWavGrid w0 ws).length = gridNum w0 ws ∧
    (simWavGrid w0 ws)[0]? = some (gridLo w0 ws) ∧
    (simWavGrid w0 ws).getLast? = some (gridHi w0 ws) ∧
    ∀ i a b, (simWavGrid w0 ws)[i]? = some a → (simWavGrid w0 ws)[i+1]? = some b →
      b - a = (gridHi w0 ws - gridLo w0 ws) / ((gridNum w0 ws : ℝ) - 1) := by
  obtain ⟨k, hk⟩ : ∃ k, gridNum w0 ws = k + 1 := ⟨gridNum w0 ws - 1, by omega⟩
  have hk1 : 1 ≤ k := by omega
  have hkR : ((k : ℝ)) ≠ 0 := Nat.cast_ne_zero.mpr (by omega)
  refine ⟨by simp [simWavGrid, linspace], ?_, ?_, ?_⟩
  · unfold simWavGrid linspace
    rw [List.getElem?_map, List.getElem?_range (by omega)]
    simp
  · unfold simWavGrid linspace
    rw [hk, List.range_succ, List.map_append]
    simp only [List.map_cons, List.map_nil]
    rw [List.getLast?_concat]
    have : (((k + 1 : ℕ) : ℝ)) - 1 = (k : ℝ) := by push_cast; ring
    rw [this, mul_comm, mul_div_assoc, div_self hkR, mul_one]
    rw [show gridLo w0 ws + (gridHi w0 ws - gridLo w0 ws) = gridHi w0 ws by ring]
  · intro i a b ha hb
    have hi1 : i + 1 < gridNum w0 ws := by
      by_contra hc
      rw [simWavGrid, linspace, List.getElem?_map, List.getElem?_eq_none
        (by simpa using Nat.le_of_not_lt hc)] at hb
      simp at hb
    have hi0 : i < gridNum w0 ws := by omega
    rw [simWavGrid, linspace, List.getElem?_map, List.getElem?_range hi0] at ha
    rw [simWavGrid, linspace, List.getElem?_map, List.getElem?_range hi1] at hb
    simp at ha hb
    subst ha hb
    have hnum : ((gridNum w0 ws : ℝ)) - 1 ≠ 0 := by
      rw [hk]
      push_cast
      intro hc
      have : (k : ℝ) = 0 := by linarith
      exact hkR this
    field_simp
    ring

/-- Witness for C2 at the `[0.3, 0.7]` micrometer table. -/
theorem C2_grid_sampling_witness :
    2 ≤ gridNum (3/10 : ℝ) [7/10] ∧
      (simWavGrid (3/10 : ℝ) [7/10]).length = gridNum (3/10 : ℝ) [7/10] := by
  have h2 : 2 ≤ gridNum (3/10 : ℝ) [7/10] := by
    rw [gridNum_eval]
    decide
  exact ⟨h2, (C2_grid_sampling (3/10) [7/10] h2).1⟩

/-- Counterexample to C2 as stated: for the table spanning `[0.3, 0.7]`
micrometers the grid has `int(1000-300) = 700` samples over `[300, 700]` nm
(spacing `400/699` nm), not the claimed 401 samples at 1 nm steps. -/
theorem C2_cex :
    (simWavGrid (3/10 : ℝ) [7/10]).length = 700 ∧ (700 : ℕ) ≠ 401 := by
  constructor
  · unfold simWavGrid linspace
    rw [List.length_map, List.length_range, gridNum_eval]
  · decide
